import Mathlib

/-!
Shallow embedding of the SSE transport core of the mongo-mcp repository:
`src/server/sse.ts` (class SSEServerTransport), `src/server/session-store.ts`
(class SessionStore) and the `/messages` POST route of the entry point.

JavaScript exceptions are modelled explicitly: a primitive that can throw
returns its new state together with `Option String` (the thrown error's
message), and `try/catch` blocks become pattern matches on that option.
JSON-RPC messages are modelled by their JSON serialization (a `String`),
since the transport only ever passes them through `JSON.stringify`.
-/

/-- Model of the HTTP response object used as the push sink
(`this.response`).  `writes` records the successfully written chunks in
order; `attempt` counts write attempts; `failAt` is the environment's
failure schedule (which write attempts throw); `endFails` says whether
`response.end()` throws. -/
structure Sink where
  writes : List String
  ended : Bool
  attempt : Nat
  failAt : Nat → Bool
  endFails : Bool

/-- `response.write(d)`: throws according to the failure schedule, otherwise
appends the chunk. -/
def Sink.write (s : Sink) (d : String) : Sink × Option String :=
  if s.failAt s.attempt then
    ({ s with attempt := s.attempt + 1 }, some "write failure")
  else
    ({ s with writes := s.writes ++ [d], attempt := s.attempt + 1 }, none)

/-- `response.end()`: may throw, otherwise marks the stream ended. -/
def Sink.endStream (s : Sink) : Sink × Option String :=
  if s.endFails then (s, some "end failure")
  else ({ s with ended := true }, none)

/-- State of one `SSEServerTransport`.  The callback fields of the class are
modelled observationally: `onclose` is `none` when no callback is
registered and `some b` when one is registered whose behaviour is `b`
(`none` = returns normally, `some e` = throws `e`); `oncloseCount` counts
its invocations.  `onerrorRegistered`/`onerrorLog` model the `onerror`
callback, `onmessageLog` records the payloads delivered to `onmessage`. -/
structure TState where
  sessionId : String
  messageEndpoint : String
  closed : Bool
  sink : Sink
  onclose : Option (Option String)
  onerrorRegistered : Bool
  onerrorLog : List String
  oncloseCount : Nat
  onmessageLog : List String

/-- `if (this.onerror) this.onerror(error)` — observable as a log append. -/
def pushOnerror (st : TState) (e : String) : TState :=
  if st.onerrorRegistered then { st with onerrorLog := st.onerrorLog ++ [e] }
  else st

/-- The first line of a frame: `event: <kind>\n`. -/
def eventLine (k : String) : String := "event: " ++ k ++ "\n"

/-- The second line of a frame: `data: <json>\n` plus the blank line. -/
def dataLine (d : String) : String := "data: " ++ d ++ "\n\n"

/-- `JSON.stringify(\x7b endpoint \x7d)` for the endpoint event of `start()`. -/
def endpointJson (ep sid : String) : String :=
  "\x7b\"endpoint\":\"" ++ ep ++ "?sessionId=" ++ sid ++ "\"\x7d"

/-- `JSON.stringify(\x7b reason: 'Server closing connection' \x7d)`. -/
def closeJson : String := "\x7b\"reason\":\"Server closing connection\"\x7d"

/-- The `try` block of `sendEvent`: the two `response.write` calls.  If the
first write throws, the second is not attempted. -/
def writeFrame (s : Sink) (k d : String) : Sink × Option String :=
  let p := s.write (eventLine k)
  match p.2 with
  | some err => (p.1, some err)
  | none => p.1.write (dataLine d)

/-- The body of `close()` between setting `closed = true` and invoking
`onclose`: `sendEvent('close', ...)` (whose internal catch logs to
`onerror`; its nested `this.close()` is a no-op because `closed` is already
true) followed by `response.end()` under `close`'s own catch.  Returns the
resulting sink and `onerror` log. -/
def closeEffects (s : Sink) (reg : Bool) (log : List String) :
    Sink × List String :=
  let p := writeFrame s "close" closeJson
  let log1 := match p.2 with
    | some e => if reg then log ++ [e] else log
    | none => log
  let q := Sink.endStream p.1
  let log2 := match q.2 with
    | some e => if reg then log1 ++ [e] else log1
    | none => log1
  (q.1, log2)

/-- `if (this.onclose) this.onclose()` — returns the thrown error, if the
registered callback throws. -/
def fireOnclose (st : TState) : TState × Option String :=
  match st.onclose with
  | none => (st, none)
  | some b => ({ st with oncloseCount := st.oncloseCount + 1 }, b)

/-- `close()` (sse.ts lines 76-93).  The second component is the error the
call rejects with (only possible when the registered `onclose` callback
itself throws). -/
def closeOp (st : TState) : TState × Option String :=
  if st.closed then (st, none)
  else
    let p := closeEffects st.sink st.onerrorRegistered st.onerrorLog
    fireOnclose { st with closed := true, sink := p.1, onerrorLog := p.2 }

/-- `sendEvent(event, data)` (sse.ts lines 103-115): writes the frame; on a
write failure its catch logs, invokes `onerror` and fires `close()`
(whose own rejection is swallowed by `.catch`).  It never throws. -/
def sendEvent (st : TState) (k d : String) : TState :=
  let p := writeFrame st.sink k d
  match p.2 with
  | none => { st with sink := p.1 }
  | some e => (closeOp (pushOnerror { st with sink := p.1 } e)).1

/-- `start()` (sse.ts lines 38-46): throws when closed, otherwise sends the
endpoint event. -/
def start (st : TState) : Except String TState :=
  if st.closed then .error "Transport is closed"
  else .ok (sendEvent st "endpoint" (endpointJson st.messageEndpoint st.sessionId))

/-- `send(message)` (sse.ts lines 95-101): throws when closed, otherwise
delegates to `sendEvent` (which swallows write failures). -/
def send (st : TState) (m : String) : Except String TState :=
  if st.closed then .error "Transport is closed"
  else .ok (sendEvent st "message" m)

/-- Body of an HTTP response produced by the transport or the router. -/
inductive RespBody where
  | textBody (s : String)
  | jsonSuccess
  | jsonRpcError (code : Int) (msg : String)
deriving DecidableEq

/-- An HTTP response: status code and body. -/
structure HttpResponse where
  status : Nat
  body : RespBody
deriving DecidableEq

/-- `handlePostMessage(req, res, message)` (sse.ts lines 48-74).  The
`onmessage` callback is passed explicitly: `none` when unregistered,
`some h` when registered with behaviour `h` (`h m = none` means it returns
normally, `h m = some e` means it throws `e`).  Throws only when the
transport is closed; a throwing `onmessage` is caught and answered with a
500 / -32000 response after invoking `onerror`. -/
def handlePostMessage (handler : Option (String → Option String))
    (st : TState) (m : String) : Except String (TState × HttpResponse) :=
  if st.closed then .error "Transport is closed"
  else
    match handler with
    | none => .ok (st, ⟨200, .jsonSuccess⟩)
    | some h =>
      let st1 := { st with onmessageLog := st.onmessageLog ++ [m] }
      match h m with
      | none => .ok (st1, ⟨200, .jsonSuccess⟩)
      | some e => .ok (pushOnerror st1 e, ⟨500, .jsonRpcError (-32000) "Server error"⟩)

/-- The `response.on('close', ...)` handler wired in the constructor
(sse.ts lines 29-36): on disconnect of the underlying connection it marks
the transport closed and fires `onclose`, nothing else. -/
def onDisconnect (st : TState) : TState :=
  if st.closed then st
  else (fireOnclose { st with closed := true }).1

/-- The constructor (sse.ts lines 18-36): fresh open transport with the
given session id, message endpoint and captured sink; no callbacks are
registered yet. -/
def mkTransport (sid ep : String) (s : Sink) : TState :=
  { sessionId := sid, messageEndpoint := ep, closed := false, sink := s,
    onclose := none, onerrorRegistered := false, onerrorLog := [],
    oncloseCount := 0, onmessageLog := [] }

/-- JS `Map.set`: replaces in place when the key exists, appends otherwise. -/
def mapSet (l : List (String × TState)) (k : String) (v : TState) :
    List (String × TState) :=
  match l with
  | [] => [(k, v)]
  | (k', v') :: rest =>
    if k' = k then (k, v) :: rest else (k', v') :: mapSet rest k v

/-- JS `Map.get`. -/
def mapGet (l : List (String × TState)) (k : String) : Option TState :=
  match l with
  | [] => none
  | (k', v') :: rest => if k' = k then some v' else mapGet rest k

/-- JS `Map.delete`, returning whether an entry was removed. -/
def mapDelete (l : List (String × TState)) (k : String) :
    List (String × TState) × Bool :=
  match l with
  | [] => ([], false)
  | (k', v') :: rest =>
    if k' = k then (rest, true)
    else
      let p := mapDelete rest k
      ((k', v') :: p.1, p.2)

/-- `SessionStore` (session-store.ts): the map from session id to
transport. -/
structure SessionStore where
  sessions : List (String × TState)

/-- `registerSession(transport)` (session-store.ts lines 12-15). -/
def registerSession (store : SessionStore) (t : TState) : SessionStore :=
  ⟨mapSet store.sessions t.sessionId t⟩

/-- `getSession(sessionId)` (session-store.ts lines 20-22). -/
def getSession (store : SessionStore) (sid : String) : Option TState :=
  mapGet store.sessions sid

/-- `removeSession(sessionId)` (session-store.ts lines 27-30). -/
def removeSession (store : SessionStore) (sid : String) :
    SessionStore × Bool :=
  let p := mapDelete store.sessions sid
  (⟨p.1⟩, p.2)

/-- `closeAllSessions()` (session-store.ts lines 42-53): close every
transport of the current snapshot, swallowing each close's rejection
(`.catch`), then clear the table.  Returns the cleared store and the
final states of the snapshot's transports. -/
def closeAllSessions (store : SessionStore) : SessionStore × List TState :=
  (⟨[]⟩, store.sessions.map (fun p => (closeOp p.2).1))

/-- Result of the router's POST handler: the HTTP response and, when some
transport's `handlePostMessage` was invoked, that transport's resulting
state keyed by session id. -/
structure RouterResult where
  resp : HttpResponse
  updated : Option (String × TState)

/-- The `app.post('/messages')` route of the entry point: missing
`sessionId` → 400 before touching the store; unknown id → 404; otherwise
delegate to `handlePostMessage`, mapping its rejection to a 500 text
response. -/
def postMessages (store : SessionStore) (sessionIdParam : Option String)
    (handler : Option (String → Option String)) (body : String) :
    RouterResult :=
  match sessionIdParam with
  | none => ⟨⟨400, .textBody "sessionId parameter missing"⟩, none⟩
  | some sid =>
    match getSession store sid with
    | none => ⟨⟨404, .textBody "session not found"⟩, none⟩
    | some t =>
      match handlePostMessage handler t body with
      | .error _ => ⟨⟨500, .textBody "message handling error"⟩, some (sid, t)⟩
      | .ok (t', resp) => ⟨resp, some (sid, t')⟩

/-! ### Basic lemmas about the transport operations -/

theorem fireOnclose_fst_closed (st : TState) :
    (fireOnclose st).1.closed = st.closed := by
  unfold fireOnclose; cases st.onclose <;> rfl

theorem fireOnclose_fst_sink (st : TState) :
    (fireOnclose st).1.sink = st.sink := by
  unfold fireOnclose; cases st.onclose <;> rfl

theorem fireOnclose_fst_sessionId (st : TState) :
    (fireOnclose st).1.sessionId = st.sessionId := by
  unfold fireOnclose; cases st.onclose <;> rfl

theorem fireOnclose_fst_messageEndpoint (st : TState) :
    (fireOnclose st).1.messageEndpoint = st.messageEndpoint := by
  unfold fireOnclose; cases st.onclose <;> rfl

theorem fireOnclose_fst_onerrorLog (st : TState) :
    (fireOnclose st).1.onerrorLog = st.onerrorLog := by
  unfold fireOnclose; cases st.onclose <;> rfl

theorem fireOnclose_of_none (st : TState) (h : st.onclose = none) :
    fireOnclose st = (st, none) := by
  unfold fireOnclose; rw [h]

theorem fireOnclose_of_some (st : TState) (b : Option String)
    (h : st.onclose = some b) :
    fireOnclose st = ({ st with oncloseCount := st.oncloseCount + 1 }, b) := by
  unfold fireOnclose; rw [h]

theorem pushOnerror_closed (st : TState) (e : String) :
    (pushOnerror st e).closed = st.closed := by
  unfold pushOnerror; split <;> rfl

theorem pushOnerror_sink (st : TState) (e : String) :
    (pushOnerror st e).sink = st.sink := by
  unfold pushOnerror; split <;> rfl

theorem pushOnerror_sessionId (st : TState) (e : String) :
    (pushOnerror st e).sessionId = st.sessionId := by
  unfold pushOnerror; split <;> rfl

theorem pushOnerror_messageEndpoint (st : TState) (e : String) :
    (pushOnerror st e).messageEndpoint = st.messageEndpoint := by
  unfold pushOnerror; split <;> rfl

theorem pushOnerror_of_reg (st : TState) (e : String)
    (h : st.onerrorRegistered = true) :
    pushOnerror st e = { st with onerrorLog := st.onerrorLog ++ [e] } := by
  unfold pushOnerror; rw [h]; simp

theorem closeOp_of_closed (st : TState) (h : st.closed = true) :
    closeOp st = (st, none) := by
  unfold closeOp; rw [h]; simp

theorem closeOp_fst_closed (st : TState) : (closeOp st).1.closed = true := by
  unfold closeOp
  by_cases h : st.closed = true
  · rw [h]; simpa using h
  · simp only [Bool.not_eq_true] at h
    rw [h]
    simp only [Bool.false_eq_true, if_false]
    rw [fireOnclose_fst_closed]

theorem onDisconnect_closed (st : TState) : (onDisconnect st).closed = true := by
  unfold onDisconnect
  by_cases h : st.closed = true
  · rw [h]; simpa using h
  · simp only [Bool.not_eq_true] at h
    rw [h]
    simp only [Bool.false_eq_true, if_false]
    rw [fireOnclose_fst_closed]

theorem onDisconnect_of_closed (st : TState) (h : st.closed = true) :
    onDisconnect st = st := by
  unfold onDisconnect; rw [h]; simp

theorem send_of_closed (st : TState) (m : String) (h : st.closed = true) :
    send st m = .error "Transport is closed" := by
  unfold send; rw [h]; simp

theorem start_of_closed (st : TState) (h : st.closed = true) :
    start st = .error "Transport is closed" := by
  unfold start; rw [h]; simp

theorem handlePostMessage_of_closed (handler : Option (String → Option String))
    (st : TState) (m : String) (h : st.closed = true) :
    handlePostMessage handler st m = .error "Transport is closed" := by
  unfold handlePostMessage; rw [h]; simp

/-! ### Lemmas about frame writing under a given failure schedule -/

/-- A sink whose write schedule never throws. -/
def sinkOk (s : Sink) : Prop := ∀ n, s.failAt n = false

theorem writeFrame_ok (s : Sink) (k d : String) (h : sinkOk s) :
    writeFrame s k d =
      ({ s with writes := s.writes ++ [eventLine k, dataLine d],
                attempt := s.attempt + 2 }, none) := by
  have h' : ∀ n, s.failAt n = false := h
  simp [writeFrame, Sink.write, h']

theorem writeFrame_fail (s : Sink) (k d : String)
    (h : s.failAt s.attempt = true) :
    writeFrame s k d = ({ s with attempt := s.attempt + 1 }, some "write failure") := by
  simp [writeFrame, Sink.write, h]

theorem sendEvent_ok (st : TState) (k d : String) (h : sinkOk st.sink) :
    sendEvent st k d =
      { st with sink := { st.sink with
          writes := st.sink.writes ++ [eventLine k, dataLine d],
          attempt := st.sink.attempt + 2 } } := by
  simp [sendEvent, writeFrame_ok st.sink k d h]

theorem closeEffects_fst_ok (s : Sink) (reg : Bool) (log : List String)
    (h : sinkOk s) :
    (closeEffects s reg log).1.writes =
        s.writes ++ [eventLine "close", dataLine closeJson] ∧
    (closeEffects s reg log).1.failAt = s.failAt := by
  simp only [closeEffects, writeFrame_ok s "close" closeJson h, Sink.endStream]
  cases s.endFails <;> simp

/-- The `onerror` log only ever grows: `closeEffects` appends to it. -/
theorem closeEffects_snd_grows (s : Sink) (reg : Bool) (log : List String) :
    ∃ ex, (closeEffects s reg log).2 = log ++ ex := by
  unfold closeEffects
  rcases hw : writeFrame s "close" closeJson with ⟨s1, werr⟩
  simp only [hw]
  rcases he : Sink.endStream s1 with ⟨s2, eerr⟩
  simp only [he]
  cases werr <;> cases eerr <;> cases reg <;> simp

theorem closeOp_fst_onerrorLog_grows (st : TState) :
    ∃ ex, (closeOp st).1.onerrorLog = st.onerrorLog ++ ex := by
  unfold closeOp
  by_cases h : st.closed = true
  · rw [h]; exact ⟨[], by simp⟩
  · simp only [Bool.not_eq_true] at h
    rw [h]
    simp only [Bool.false_eq_true, if_false]
    rcases closeEffects_snd_grows st.sink st.onerrorRegistered st.onerrorLog with ⟨ex, hex⟩
    exact ⟨ex, by rw [fireOnclose_fst_onerrorLog]; simpa using hex⟩

/-! ### Concrete states used to instantiate the theorems -/

/-- A sink that never fails. -/
def okSink : Sink :=
  { writes := [], ended := false, attempt := 0, failAt := fun _ => false,
    endFails := false }

/-- A sink on which every write attempt throws. -/
def failSink : Sink :=
  { writes := [], ended := false, attempt := 0, failAt := fun _ => true,
    endFails := false }

/-- A freshly constructed transport on a healthy sink. -/
def freshT : TState := mkTransport "S" "/messages" okSink

/-- A fresh transport on a failing sink, with an `onerror` callback
registered. -/
def failT : TState :=
  { mkTransport "S" "/messages" failSink with onerrorRegistered := true }

/-- A fresh transport whose registered `onclose` callback returns
normally. -/
def benignT : TState :=
  { mkTransport "S" "/messages" okSink with onclose := some none }

/-- The state of `freshT` after a successful `start()`. -/
def startedT : TState :=
  match start freshT with
  | .ok s => s
  | .error _ => freshT

theorem fireOnclose_snd (st : TState) :
    (fireOnclose st).2 = st.onclose.join := by
  unfold fireOnclose; cases st.onclose <;> rfl

theorem fireOnclose_fst_oncloseCount (st : TState) :
    (fireOnclose st).1.oncloseCount =
      if st.onclose.isSome then st.oncloseCount + 1 else st.oncloseCount := by
  unfold fireOnclose; cases st.onclose <;> rfl

/-! ### C3 -/

/-- Claim C3: `close()` is idempotent and total — the first call performs
the close sequence (invoking the lifecycle callback once), every later
call is a no-op, and no call raises an error to the caller even when
writing the close envelope or ending the sink fails (any failure schedule
is allowed); the only proviso is that the registered `onclose` callback
itself returns normally. -/
theorem C3_close_idempotent_total (st : TState)
    (h : st.onclose = none ∨ st.onclose = some none) :
    (closeOp st).2 = none ∧
    (closeOp st).1.closed = true ∧
    closeOp (closeOp st).1 = ((closeOp st).1, none) ∧
    (st.closed = false → st.onclose = some none →
      (closeOp st).1.oncloseCount = st.oncloseCount + 1) := by
  refine ⟨?_, closeOp_fst_closed st, closeOp_of_closed _ (closeOp_fst_closed st), ?_⟩
  · unfold closeOp
    by_cases hc : st.closed = true
    · rw [hc]; simp
    · simp only [Bool.not_eq_true] at hc
      rw [hc]
      simp only [Bool.false_eq_true, if_false, fireOnclose_snd]
      rcases h with h | h <;> simp [h]
  · intro hc ho
    unfold closeOp
    rw [hc]
    simp only [Bool.false_eq_true, if_false, fireOnclose_fst_oncloseCount]
    simp [ho]

theorem C3_witness :
    (closeOp benignT).2 = none ∧
    closeOp (closeOp benignT).1 = ((closeOp benignT).1, none) ∧
    (closeOp benignT).1.oncloseCount = benignT.oncloseCount + 1 :=
  ⟨(C3_close_idempotent_total benignT (Or.inr rfl)).1,
   (C3_close_idempotent_total benignT (Or.inr rfl)).2.2.1,
   (C3_close_idempotent_total benignT (Or.inr rfl)).2.2.2 rfl rfl⟩

/-! ### C4 -/

/-- Claim C4: once a transport's close sequence has completed — whether
via `close()` or via disconnect of the underlying connection — every
subsequent `send` and every subsequent `handlePostMessage` fails with the
transport-closed error. -/
theorem C4_closed_rejects_send_and_deliver (st : TState) (m m2 : String)
    (handler : Option (String → Option String)) :
    send (closeOp st).1 m = .error "Transport is closed" ∧
    handlePostMessage handler (closeOp st).1 m2 = .error "Transport is closed" ∧
    send (onDisconnect st) m = .error "Transport is closed" ∧
    handlePostMessage handler (onDisconnect st) m2 = .error "Transport is closed" :=
  ⟨send_of_closed _ _ (closeOp_fst_closed st),
   handlePostMessage_of_closed _ _ _ (closeOp_fst_closed st),
   send_of_closed _ _ (onDisconnect_closed st),
   handlePostMessage_of_closed _ _ _ (onDisconnect_closed st)⟩

/-! ### C1 -/

/-- Counterexample to claim C1: on an open transport over a sink whose
write throws, `send` resolves successfully (`isOk`) instead of surfacing
the write error to its caller — even though the failure did set the closed
flag and was reported to `onerror`. -/
theorem C1_cex :
    (send failT "\x7b\x7d").isOk = true ∧
    (match send failT "\x7b\x7d" with
     | .ok s => s.closed
     | .error _ => false) = true ∧
    (match send failT "\x7b\x7d" with
     | .ok s => s.onerrorLog.head?
     | .error _ => none) = some "write failure" :=
  ⟨rfl, rfl, rfl⟩

/-- Claim C1 (amended): when the underlying write to the push sink fails
during `send`, `close()` is triggered as a side effect and the write error
is passed to the registered `onerror` callback, but `send` itself resolves
successfully — the error is swallowed by `sendEvent`'s catch, not surfaced
to the caller of `send` (and it is not retried). -/
theorem C1_send_write_failure_closes_not_surfaced (st : TState) (m : String)
    (hc : st.closed = false) (hreg : st.onerrorRegistered = true)
    (hfail : st.sink.failAt st.sink.attempt = true) :
    send st m = .ok (sendEvent st "message" m) ∧
    (sendEvent st "message" m).closed = true ∧
    "write failure" ∈ (sendEvent st "message" m).onerrorLog := by
  have hse : sendEvent st "message" m =
      (closeOp (pushOnerror
        { st with sink := { st.sink with attempt := st.sink.attempt + 1 } }
        "write failure")).1 := by
    simp [sendEvent, writeFrame_fail st.sink (eventLine "message") (dataLine m) hfail,
      writeFrame, Sink.write, hfail]
  refine ⟨by simp [send, hc], ?_, ?_⟩
  · rw [hse]; exact closeOp_fst_closed _
  · rw [hse]
    rcases closeOp_fst_onerrorLog_grows (pushOnerror
        { st with sink := { st.sink with attempt := st.sink.attempt + 1 } }
        "write failure") with ⟨ex, hex⟩
    rw [hex, pushOnerror_of_reg _ _ (by simpa using hreg)]
    simp

theorem C1_witness :
    failT.closed = false ∧
    send failT "\x7b\x7d" = .ok (sendEvent failT "message" "\x7b\x7d") ∧
    (sendEvent failT "message" "\x7b\x7d").closed = true ∧
    "write failure" ∈ (sendEvent failT "message" "\x7b\x7d").onerrorLog :=
  ⟨rfl,
   (C1_send_write_failure_closes_not_surfaced failT "\x7b\x7d" rfl rfl rfl).1,
   (C1_send_write_failure_closes_not_surfaced failT "\x7b\x7d" rfl rfl rfl).2.1,
   (C1_send_write_failure_closes_not_surfaced failT "\x7b\x7d" rfl rfl rfl).2.2⟩

/-! ### C2 -/

/-- Counterexample to claim C2: a second `start()` on a started (still
open) transport does not fail — it succeeds and writes a second endpoint
envelope onto the stream. -/
theorem C2_cex :
    (start startedT).isOk = true ∧
    (match start startedT with
     | .ok s => s.sink.writes
     | .error _ => []) =
      [eventLine "endpoint", dataLine (endpointJson "/messages" "S"),
       eventLine "endpoint", dataLine (endpointJson "/messages" "S")] :=
  ⟨rfl, rfl⟩

/-- Claim C2 (amended): `start()` fails only when the transport is closed,
not in every non-CREATED state.  On an open transport with an empty,
healthy stream it succeeds and emits one endpoint envelope, which is the
first envelope written on the stream and carries the message endpoint
parameterized by the session id; but it does not record having started, so
a second `start()` on the still-open transport succeeds again (emitting a
second endpoint envelope) instead of failing. -/
theorem C2_start_emits_endpoint_first (st : TState)
    (hc : st.closed = false) (hw : st.sink.writes = [])
    (hok : sinkOk st.sink) :
    start st = .ok (sendEvent st "endpoint"
      (endpointJson st.messageEndpoint st.sessionId)) ∧
    (sendEvent st "endpoint" (endpointJson st.messageEndpoint st.sessionId)).sink.writes =
      [eventLine "endpoint", dataLine (endpointJson st.messageEndpoint st.sessionId)] ∧
    (sendEvent st "endpoint" (endpointJson st.messageEndpoint st.sessionId)).closed = false ∧
    (start (sendEvent st "endpoint"
      (endpointJson st.messageEndpoint st.sessionId))).isOk = true ∧
    (∀ st2 : TState, st2.closed = true →
      start st2 = Except.error "Transport is closed") := by
  have hse := sendEvent_ok st "endpoint" (endpointJson st.messageEndpoint st.sessionId) hok
  refine ⟨by simp [start, hc], ?_, ?_, ?_, fun st2 h2 => start_of_closed st2 h2⟩
  · rw [hse]; simp [hw]
  · rw [hse]; simpa using hc
  · rw [hse]
    simp [start, hc, Except.isOk, Except.toBool]

theorem C2_witness :
    freshT.closed = false ∧ freshT.sink.writes = [] ∧
    start freshT = .ok (sendEvent freshT "endpoint"
      (endpointJson freshT.messageEndpoint freshT.sessionId)) ∧
    (sendEvent freshT "endpoint"
      (endpointJson freshT.messageEndpoint freshT.sessionId)).sink.writes =
      [eventLine "endpoint", dataLine (endpointJson freshT.messageEndpoint freshT.sessionId)] ∧
    (start (sendEvent freshT "endpoint"
      (endpointJson freshT.messageEndpoint freshT.sessionId))).isOk = true :=
  ⟨rfl, rfl,
   (C2_start_emits_endpoint_first freshT rfl rfl (fun _ => rfl)).1,
   (C2_start_emits_endpoint_first freshT rfl rfl (fun _ => rfl)).2.1,
   (C2_start_emits_endpoint_first freshT rfl rfl (fun _ => rfl)).2.2.2.1⟩

/-! ### C5 -/

/-- Counterexample to claim C5: disconnect of the underlying connection
does not run the same close sequence as `close()` — on a fresh transport
it writes nothing to the sink and does not end it, whereas `close()`
writes the close envelope and ends the sink. -/
theorem C5_cex :
    (onDisconnect freshT).sink.writes = [] ∧
    (onDisconnect freshT).sink.ended = false ∧
    (closeOp freshT).1.sink.writes = [eventLine "close", dataLine closeJson] ∧
    (closeOp freshT).1.sink.ended = true :=
  ⟨rfl, rfl, rfl, rfl⟩

/-- Claim C5 (amended): disconnect of the underlying connection marks the
transport closed and fires the `onclose` lifecycle callback, but — unlike
`close()` — it writes no close envelope and does not end the sink.  The
close transition and lifecycle callback happen exactly once per transport:
a second disconnect is a no-op, `close()` after a disconnect is a no-op,
and a disconnect after `close()` is a no-op. -/
theorem C5_disconnect_close_once (st : TState) (hc : st.closed = false) :
    (onDisconnect st).closed = true ∧
    (onDisconnect st).sink = st.sink ∧
    (onDisconnect st).oncloseCount =
      (if st.onclose.isSome then st.oncloseCount + 1 else st.oncloseCount) ∧
    onDisconnect (onDisconnect st) = onDisconnect st ∧
    closeOp (onDisconnect st) = (onDisconnect st, none) ∧
    onDisconnect (closeOp st).1 = (closeOp st).1 := by
  refine ⟨onDisconnect_closed st, ?_, ?_,
    onDisconnect_of_closed _ (onDisconnect_closed st),
    closeOp_of_closed _ (onDisconnect_closed st),
    onDisconnect_of_closed _ (closeOp_fst_closed st)⟩
  · unfold onDisconnect
    rw [hc]
    simp only [Bool.false_eq_true, if_false]
    rw [fireOnclose_fst_sink]
  · unfold onDisconnect
    rw [hc]
    simp only [Bool.false_eq_true, if_false]
    rw [fireOnclose_fst_oncloseCount]

theorem C5_witness :
    freshT.closed = false ∧
    (onDisconnect freshT).closed = true ∧
    (onDisconnect freshT).sink = freshT.sink ∧
    onDisconnect (onDisconnect freshT) = onDisconnect freshT ∧
    closeOp (onDisconnect freshT) = (onDisconnect freshT, none) ∧
    onDisconnect (closeOp freshT).1 = (closeOp freshT).1 :=
  ⟨rfl,
   (C5_disconnect_close_once freshT rfl).1,
   (C5_disconnect_close_once freshT rfl).2.1,
   (C5_disconnect_close_once freshT rfl).2.2.2.1,
   (C5_disconnect_close_once freshT rfl).2.2.2.2.1,
   (C5_disconnect_close_once freshT rfl).2.2.2.2.2⟩

/-! ### C6 -/

/-- Claim C6: `closeAllSessions` calls `close()` on every transport of the
current registry snapshot, each close's rejection is swallowed so that one
failure cannot prevent the others from closing, and afterwards the table
is empty regardless of individual failures: every snapshot transport ends
up closed. -/
theorem C6_closeAll_closes_everything_and_clears (store : SessionStore) :
    (closeAllSessions store).1.sessions = [] ∧
    (closeAllSessions store).2 = store.sessions.map (fun p => (closeOp p.2).1) ∧
    ((closeAllSessions store).2.all fun t => t.closed) = true := by
  refine ⟨rfl, rfl, ?_⟩
  simp only [closeAllSessions, List.all_eq_true, List.mem_map]
  rintro t ⟨p, _, rfl⟩
  exact closeOp_fst_closed p.2

/-! ### C8 -/

/-- A transport whose session id collides with `collideT2`'s. -/
def collideT1 : TState := mkTransport "S" "/a" okSink

/-- A second transport constructed with the same session id. -/
def collideT2 : TState := mkTransport "S" "/b" okSink

/-- Claim C8, evaluated at the failing input: registering a second
transport under an already-registered session id silently overwrites the
existing entry — `registerSession` reports no error and the first
transport's entry is gone, contrary to the claim that a collision is
asserted/logged and never a silent overwrite. -/
theorem C8_register_silent_overwrite :
    (registerSession (registerSession ⟨[]⟩ collideT1) collideT2).sessions.map
        (fun p => (p.1, p.2.messageEndpoint)) = [("S", "/b")] ∧
    (getSession (registerSession (registerSession ⟨[]⟩ collideT1) collideT2) "S").map
        (fun t => t.messageEndpoint) = some "/b" :=
  ⟨rfl, rfl⟩

/-! ### C10 -/

theorem pushOnerror_onmessageLog (st : TState) (e : String) :
    (pushOnerror st e).onmessageLog = st.onmessageLog := by
  unfold pushOnerror; split <;> rfl

theorem send_isOk_of_open (st : TState) (m : String) (h : st.closed = false) :
    (send st m).isOk = true := by
  simp [send, h, Except.isOk, Except.toBool]

theorem handlePostMessage_isOk_of_open (handler : Option (String → Option String))
    (st : TState) (m : String) (h : st.closed = false) :
    (handlePostMessage handler st m).isOk = true := by
  unfold handlePostMessage
  rw [h]
  simp only [Bool.false_eq_true, if_false]
  cases handler with
  | none => rfl
  | some f =>
    rcases hfm : f m with _ | e <;> simp [hfm, Except.isOk, Except.toBool]

/-- The transport state after `handlePostMessage` caught a throwing
`onmessage` callback: the message was delivered, the error was passed to
`onerror`, nothing else changed. -/
def afterFailedDelivery (st : TState) (m e : String) : TState :=
  pushOnerror { st with onmessageLog := st.onmessageLog ++ [m] } e

/-- Claim C10: when the registered `onmessage` callback throws during
`handlePostMessage` on an open transport, the HTTP caller gets a 500
response with error code -32000, `onerror` receives the thrown error, the
transport stays open (the closed flag is untouched), and subsequent
`send` and `handlePostMessage` calls still succeed. -/
theorem C10_onmessage_throw_keeps_transport_open (st : TState)
    (f : String → Option String) (m e : String)
    (hc : st.closed = false) (hreg : st.onerrorRegistered = true)
    (hf : f m = some e) :
    handlePostMessage (some f) st m =
      .ok (afterFailedDelivery st m e,
           ⟨500, .jsonRpcError (-32000) "Server error"⟩) ∧
    (afterFailedDelivery st m e).closed = false ∧
    (afterFailedDelivery st m e).onerrorLog = st.onerrorLog ++ [e] ∧
    (afterFailedDelivery st m e).onmessageLog = st.onmessageLog ++ [m] ∧
    (∀ m2, (send (afterFailedDelivery st m e) m2).isOk = true) ∧
    (∀ h2 m3, (handlePostMessage h2 (afterFailedDelivery st m e) m3).isOk = true) := by
  have hopen : (afterFailedDelivery st m e).closed = false := by
    unfold afterFailedDelivery
    rw [pushOnerror_closed]
    simpa using hc
  refine ⟨?_, hopen, ?_, ?_,
    fun m2 => send_isOk_of_open _ m2 hopen,
    fun h2 m3 => handlePostMessage_isOk_of_open h2 _ m3 hopen⟩
  · simp [handlePostMessage, hc, hf, afterFailedDelivery]
  · unfold afterFailedDelivery
    rw [pushOnerror_of_reg _ _ (by simpa using hreg)]
  · unfold afterFailedDelivery
    rw [pushOnerror_onmessageLog]

/-- A fresh open transport with an `onerror` callback registered. -/
def regT : TState := { mkTransport "S" "/messages" okSink with onerrorRegistered := true }

/-- A model `onmessage` callback that always throws. -/
def throwingHandler : String → Option String := fun _ => some "boom"

theorem C10_witness :
    handlePostMessage (some throwingHandler) regT "\x7b\x7d" =
      .ok (afterFailedDelivery regT "\x7b\x7d" "boom",
           ⟨500, .jsonRpcError (-32000) "Server error"⟩) ∧
    (afterFailedDelivery regT "\x7b\x7d" "boom").closed = false ∧
    (afterFailedDelivery regT "\x7b\x7d" "boom").onerrorLog = ["boom"] ∧
    (send (afterFailedDelivery regT "\x7b\x7d" "boom") "x").isOk = true ∧
    (handlePostMessage none (afterFailedDelivery regT "\x7b\x7d" "boom") "y").isOk = true :=
  ⟨(C10_onmessage_throw_keeps_transport_open regT throwingHandler "\x7b\x7d" "boom" rfl rfl rfl).1,
   (C10_onmessage_throw_keeps_transport_open regT throwingHandler "\x7b\x7d" "boom" rfl rfl rfl).2.1,
   (C10_onmessage_throw_keeps_transport_open regT throwingHandler "\x7b\x7d" "boom" rfl rfl rfl).2.2.1,
   (C10_onmessage_throw_keeps_transport_open regT throwingHandler "\x7b\x7d" "boom" rfl rfl rfl).2.2.2.2.1 "x",
   (C10_onmessage_throw_keeps_transport_open regT throwingHandler "\x7b\x7d" "boom" rfl rfl rfl).2.2.2.2.2 none "y"⟩

/-! ### C7 -/

/-- The transport state after a successful inbound delivery: the message
was handed to `onmessage` when one is registered, nothing else changed. -/
def deliverOk (handler : Option (String → Option String)) (t : TState)
    (body : String) : TState :=
  match handler with
  | none => t
  | some _ => { t with onmessageLog := t.onmessageLog ++ [body] }

/-- Claim C7: on the `/messages` POST route, a missing `sessionId` query
parameter yields a 400 client error with no transport involved; an unknown
session id yields a 404 with no transport's inbound callback invoked; and
for a known open session whose inbound callback succeeds, the HTTP caller
receives the 200 success acknowledgement (the body carries only the
acknowledgement, never an RPC reply) while the message is delivered to the
transport's callback. -/
theorem C7_post_route_dispatch (store : SessionStore)
    (handler : Option (String → Option String)) (body : String) :
    postMessages store none handler body =
      ⟨⟨400, .textBody "sessionId parameter missing"⟩, none⟩ ∧
    (∀ sid, getSession store sid = none →
      postMessages store (some sid) handler body =
        ⟨⟨404, .textBody "session not found"⟩, none⟩) ∧
    (∀ sid t, getSession store sid = some t → t.closed = false →
      (∀ f, handler = some f → f body = none) →
      postMessages store (some sid) handler body =
        ⟨⟨200, .jsonSuccess⟩, some (sid, deliverOk handler t body)⟩) := by
  refine ⟨rfl, ?_, ?_⟩
  · intro sid hnone
    simp [postMessages, hnone]
  · intro sid t hget hc hok
    simp only [postMessages, hget]
    cases handler with
    | none => simp [handlePostMessage, hc, deliverOk]
    | some f =>
      have hfb : f body = none := hok f rfl
      simp [handlePostMessage, hc, hfb, deliverOk]

/-- The registry holding the single fresh transport `freshT`. -/
def routeStore : SessionStore := registerSession ⟨[]⟩ freshT

/-- A model `onmessage` callback that returns normally. -/
def okHandlerOpt : Option (String → Option String) := some (fun _ => none)

theorem C7_witness :
    postMessages routeStore none okHandlerOpt "b" =
      ⟨⟨400, .textBody "sessionId parameter missing"⟩, none⟩ ∧
    postMessages routeStore (some "missing") okHandlerOpt "b" =
      ⟨⟨404, .textBody "session not found"⟩, none⟩ ∧
    postMessages routeStore (some "S") okHandlerOpt "b" =
      ⟨⟨200, .jsonSuccess⟩, some ("S", deliverOk okHandlerOpt freshT "b")⟩ :=
  ⟨(C7_post_route_dispatch routeStore okHandlerOpt "b").1,
   (C7_post_route_dispatch routeStore okHandlerOpt "b").2.1 "missing" rfl,
   (C7_post_route_dispatch routeStore okHandlerOpt "b").2.2 "S" freshT rfl rfl
     (fun f hf => by rw [← Option.some.inj hf])⟩

/-! ### C9 -/

theorem onDisconnect_sink (st : TState) : (onDisconnect st).sink = st.sink := by
  unfold onDisconnect
  by_cases h : st.closed = true
  · rw [h]; simp
  · simp only [Bool.not_eq_true] at h
    rw [h]
    simp only [Bool.false_eq_true, if_false]
    rw [fireOnclose_fst_sink]

theorem onDisconnect_sessionId (st : TState) :
    (onDisconnect st).sessionId = st.sessionId := by
  unfold onDisconnect
  by_cases h : st.closed = true
  · rw [h]; simp
  · simp only [Bool.not_eq_true] at h
    rw [h]
    simp only [Bool.false_eq_true, if_false]
    rw [fireOnclose_fst_sessionId]

theorem onDisconnect_messageEndpoint (st : TState) :
    (onDisconnect st).messageEndpoint = st.messageEndpoint := by
  unfold onDisconnect
  by_cases h : st.closed = true
  · rw [h]; simp
  · simp only [Bool.not_eq_true] at h
    rw [h]
    simp only [Bool.false_eq_true, if_false]
    rw [fireOnclose_fst_messageEndpoint]

theorem closeOp_fst_sessionId (st : TState) :
    (closeOp st).1.sessionId = st.sessionId := by
  unfold closeOp
  by_cases h : st.closed = true
  · rw [h]; simp
  · simp only [Bool.not_eq_true] at h
    rw [h]
    simp only [Bool.false_eq_true, if_false]
    rw [fireOnclose_fst_sessionId]

theorem closeOp_fst_messageEndpoint (st : TState) :
    (closeOp st).1.messageEndpoint = st.messageEndpoint := by
  unfold closeOp
  by_cases h : st.closed = true
  · rw [h]; simp
  · simp only [Bool.not_eq_true] at h
    rw [h]
    simp only [Bool.false_eq_true, if_false]
    rw [fireOnclose_fst_messageEndpoint]

theorem closeOp_fst_sink_ok (st : TState) (h : sinkOk st.sink)
    (hc : st.closed = false) :
    (closeOp st).1.sink.writes =
        st.sink.writes ++ [eventLine "close", dataLine closeJson] ∧
    (closeOp st).1.sink.failAt = st.sink.failAt := by
  unfold closeOp
  rw [hc]
  simp only [Bool.false_eq_true, if_false, fireOnclose_fst_sink]
  exact closeEffects_fst_ok st.sink st.onerrorRegistered st.onerrorLog h

theorem closeOp_fst_sink_of_closed (st : TState) (hc : st.closed = true) :
    (closeOp st).1.sink = st.sink := by
  rw [closeOp_of_closed st hc]

/-- One externally triggered operation on a transport: the owner's
`start`/`send`/`close` calls, a disconnect of the underlying connection,
or an inbound POST delivered with the given `onmessage` behaviour. -/
inductive Op where
  | start : Op
  | send (m : String) : Op
  | close : Op
  | disconnect : Op
  | post (handler : Option (String → Option String)) (m : String) : Op

/-- The state reached after one operation (a rejected operation leaves the
state unchanged — `start`/`send`/`handlePostMessage` throw before mutating
anything when the transport is closed). -/
def applyOp (st : TState) : Op → TState
  | .start =>
    match start st with
    | .ok s => s
    | .error _ => st
  | .send m =>
    match send st m with
    | .ok s => s
    | .error _ => st
  | .close => (closeOp st).1
  | .disconnect => onDisconnect st
  | .post handler m =>
    match handlePostMessage handler st m with
    | .ok p => p.1
    | .error _ => st

/-- Run a sequence of operations from a state. -/
def run (st : TState) : List Op → TState
  | [] => st
  | op :: ops => run (applyOp st op) ops

/-- The wire-framing predicate of the push stream: the write log is a
sequence of frames, each exactly two chunks — `event: <kind>\n` then
`data: <json>\n\n` — with kind one of `endpoint`, `message`, `close`;
endpoint frames carry the JSON object embedding the message endpoint and
session id, close frames carry the JSON object with the reason string. -/
inductive FrameList (ep sid : String) : List String → Prop where
  | nil : FrameList ep sid []
  | endpointF (rest : List String) : FrameList ep sid rest →
      FrameList ep sid
        (eventLine "endpoint" :: dataLine (endpointJson ep sid) :: rest)
  | messageF (j : String) (rest : List String) : FrameList ep sid rest →
      FrameList ep sid (eventLine "message" :: dataLine j :: rest)
  | closeF (rest : List String) : FrameList ep sid rest →
      FrameList ep sid (eventLine "close" :: dataLine closeJson :: rest)

theorem FrameList.append (ep sid : String) (l1 l2 : List String)
    (h1 : FrameList ep sid l1) (h2 : FrameList ep sid l2) :
    FrameList ep sid (l1 ++ l2) := by
  induction h1 with
  | nil => simpa using h2
  | endpointF rest _ ih => simpa using FrameList.endpointF _ ih
  | messageF j rest _ ih => simpa using FrameList.messageF j _ ih
  | closeF rest _ ih => simpa using FrameList.closeF _ ih

theorem applyOp_preserves (st : TState) (op : Op) (hok : sinkOk st.sink) :
    sinkOk (applyOp st op).sink ∧
    (applyOp st op).sessionId = st.sessionId ∧
    (applyOp st op).messageEndpoint = st.messageEndpoint ∧
    ∃ ex, (applyOp st op).sink.writes = st.sink.writes ++ ex ∧
      FrameList st.messageEndpoint st.sessionId ex := by
  cases op with
  | start =>
    by_cases hc : st.closed = true
    · have he : applyOp st Op.start = st := by
        simp [applyOp, start_of_closed st hc]
      rw [he]
      exact ⟨hok, rfl, rfl, [], by simp, FrameList.nil⟩
    · simp only [Bool.not_eq_true] at hc
      have he : applyOp st Op.start =
          sendEvent st "endpoint" (endpointJson st.messageEndpoint st.sessionId) := by
        simp [applyOp, start, hc]
      rw [he, sendEvent_ok st _ _ hok]
      exact ⟨hok, rfl, rfl,
        [eventLine "endpoint", dataLine (endpointJson st.messageEndpoint st.sessionId)],
        rfl, FrameList.endpointF [] FrameList.nil⟩
  | send m =>
    by_cases hc : st.closed = true
    · have he : applyOp st (Op.send m) = st := by
        simp [applyOp, send_of_closed st m hc]
      rw [he]
      exact ⟨hok, rfl, rfl, [], by simp, FrameList.nil⟩
    · simp only [Bool.not_eq_true] at hc
      have he : applyOp st (Op.send m) = sendEvent st "message" m := by
        simp [applyOp, send, hc]
      rw [he, sendEvent_ok st _ _ hok]
      exact ⟨hok, rfl, rfl, [eventLine "message", dataLine m],
        rfl, FrameList.messageF m [] FrameList.nil⟩
  | close =>
    by_cases hc : st.closed = true
    · have he : applyOp st Op.close = st := by
        show (closeOp st).1 = st
        rw [closeOp_of_closed st hc]
      rw [he]
      exact ⟨hok, rfl, rfl, [], by simp, FrameList.nil⟩
    · simp only [Bool.not_eq_true] at hc
      obtain ⟨hw, hfa⟩ := closeOp_fst_sink_ok st hok hc
      refine ⟨?_, closeOp_fst_sessionId st, closeOp_fst_messageEndpoint st,
        [eventLine "close", dataLine closeJson], hw,
        FrameList.closeF [] FrameList.nil⟩
      intro n
      show (closeOp st).1.sink.failAt n = false
      rw [hfa]
      exact hok n
  | disconnect =>
    refine ⟨?_, onDisconnect_sessionId st, onDisconnect_messageEndpoint st,
      [], ?_, FrameList.nil⟩
    · intro n
      show (onDisconnect st).sink.failAt n = false
      rw [onDisconnect_sink]
      exact hok n
    · show (onDisconnect st).sink.writes = st.sink.writes ++ []
      rw [onDisconnect_sink]
      simp
  | post handler m =>
    by_cases hc : st.closed = true
    · have he : applyOp st (Op.post handler m) = st := by
        simp [applyOp, handlePostMessage_of_closed handler st m hc]
      rw [he]
      exact ⟨hok, rfl, rfl, [], by simp, FrameList.nil⟩
    · simp only [Bool.not_eq_true] at hc
      cases handler with
      | none =>
        have he : applyOp st (Op.post none m) = st := by
          simp [applyOp, handlePostMessage, hc]
        rw [he]
        exact ⟨hok, rfl, rfl, [], by simp, FrameList.nil⟩
      | some f =>
        rcases hfm : f m with _ | e
        · have he : applyOp st (Op.post (some f) m) =
              { st with onmessageLog := st.onmessageLog ++ [m] } := by
            simp [applyOp, handlePostMessage, hc, hfm]
          rw [he]
          exact ⟨hok, rfl, rfl, [], by simp, FrameList.nil⟩
        · have he : applyOp st (Op.post (some f) m) =
              pushOnerror { st with onmessageLog := st.onmessageLog ++ [m] } e := by
            simp [applyOp, handlePostMessage, hc, hfm]
          rw [he]
          refine ⟨?_, ?_, ?_, [], ?_, FrameList.nil⟩
          · intro n
            rw [pushOnerror_sink]
            exact hok n
          · rw [pushOnerror_sessionId]
          · rw [pushOnerror_messageEndpoint]
          · rw [pushOnerror_sink]
            simp

theorem run_frames (ops : List Op) : ∀ st : TState, sinkOk st.sink →
    FrameList st.messageEndpoint st.sessionId st.sink.writes →
    FrameList st.messageEndpoint st.sessionId (run st ops).sink.writes := by
  induction ops with
  | nil => intro st _ hf; exact hf
  | cons op ops ih =>
    intro st hok hf
    obtain ⟨hok', hsid, hep, ex, hwr, hfr⟩ := applyOp_preserves st op hok
    have hstep : FrameList (applyOp st op).messageEndpoint (applyOp st op).sessionId
        (applyOp st op).sink.writes := by
      rw [hsid, hep, hwr]
      exact FrameList.append _ _ _ _ hf hfr
    have := ih (applyOp st op) hok' hstep
    rw [hsid, hep] at this
    exact this

/-- Claim C9: starting from a transport with an empty, healthy push stream,
after any sequence of operations every envelope on the stream is framed as
exactly two chunks — `event: <kind>\n` then `data: <json>\n\n` (the second
newline is the blank line) — with kind one of endpoint/message/close, the
endpoint payload being the JSON object embedding
`<base-path>?sessionId=<id>` for the transport's own endpoint and session
id, and the close payload being the JSON object with the reason string. -/
theorem C9_wire_framing (st : TState) (ops : List Op)
    (hok : sinkOk st.sink) (hw : st.sink.writes = []) :
    FrameList st.messageEndpoint st.sessionId (run st ops).sink.writes :=
  run_frames ops st hok (by rw [hw]; exact FrameList.nil)

theorem C9_witness :
    sinkOk freshT.sink ∧ freshT.sink.writes = [] ∧
    FrameList freshT.messageEndpoint freshT.sessionId
      (run freshT [Op.start, Op.send "x", Op.close]).sink.writes :=
  ⟨fun _ => rfl, rfl,
   C9_wire_framing freshT [Op.start, Op.send "x", Op.close] (fun _ => rfl) rfl⟩
